import Mathlib

/-!
Verification of the Pong simulation core.

The repository contains three evolving variants of the same engine:
* `src/src/public/GameState.js` — the 4-paddle lives-with-reserve variant
  (embedded below as namespace `FourPaddle`);
* `src/pong-game/public/GameState.js` — the legacy classic variant
  (embedded below as namespace `PongGame`).

JavaScript numbers are modelled as exact rationals (`ℚ`); the ambient
mathematical functions the code calls (`Math.cos`, `Math.sin`, `Math.sqrt`,
`Math.PI`, and the value drawn from `Math.random()` for a respawn) are
abstracted as parameters, so every definition stays computable and the
theorems state precisely which facts about those functions they use.
Scores and lives are JavaScript numbers that the code only ever sets to
integer values; they are modelled as `ℤ`.
-/

set_option autoImplicit false

namespace Pong

/-- Abstraction of the ambient math functions used by the source
(`Math.cos`, `Math.sin`, `Math.sqrt`, `Math.PI`). -/
structure Trig where
  cos : ℚ → ℚ
  sin : ℚ → ℚ
  sqrt : ℚ → ℚ
  pi : ℚ

namespace FourPaddle

/-- Ball object of `src/src/public/GameState.js` (`createInitialBall`). -/
structure Ball where
  x : ℚ
  y : ℚ
  velocityX : ℚ
  velocityY : ℚ
  radius : ℚ
  speed : ℚ
  baseSpeed : ℚ
  maxSpeed : ℚ
deriving DecidableEq

/-- Paddle object (`createInitialPaddles`).  In the source the left/right
paddles carry only a `velocityY` field and the top/bottom paddles only a
`velocityX` field; here every paddle carries both, with the unused one
initialized to 0 and never read for that paddle role. -/
structure Paddle where
  x : ℚ
  y : ℚ
  width : ℚ
  height : ℚ
  speed : ℚ
  velocityX : ℚ
  velocityY : ℚ
deriving DecidableEq

/-- The object-literal paddle map `this.paddles` keyed by role. -/
structure Paddles where
  left : Paddle
  right : Paddle
  top : Paddle
  bottom : Paddle
deriving DecidableEq

/-- The closed set of paddle roles used to index `this.paddles`. -/
inductive PaddleName where
  | left
  | right
  | top
  | bottom
deriving DecidableEq

/-- `this.paddles[paddleName]`. -/
def Paddles.get (ps : Paddles) : PaddleName → Paddle
  | .left => ps.left
  | .right => ps.right
  | .top => ps.top
  | .bottom => ps.bottom

/-- Pointwise update of `this.paddles[paddleName]`. -/
def Paddles.set (ps : Paddles) : PaddleName → Paddle → Paddles
  | .left, p => { ps with left := p }
  | .right, p => { ps with right := p }
  | .top, p => { ps with top := p }
  | .bottom, p => { ps with bottom := p }

/-- `this.gameConfig`. -/
structure GameConfig where
  width : ℚ
  height : ℚ
  isRunning : Bool
deriving DecidableEq

/-- The whole mutable state of a `GameState` instance. -/
structure State where
  gameConfig : GameConfig
  ball : Ball
  paddles : Paddles
  score : ℤ
  lives : ℤ
  gameOver : Bool
  finalScore : ℤ
  reserveTeamUsed : Bool
  showReserveTeamOption : Bool
deriving DecidableEq

/-- Input state `{vertical, horizontal}`; `none` models an `undefined`
field. -/
structure Input where
  vertical : Option ℚ
  horizontal : Option ℚ
deriving DecidableEq

/-- `createInitialBall()`: fresh ball at field center with a randomized
direction.  `rand` is the value `Math.random()` returned for this call. -/
def createInitialBall (tr : Trig) (rand : ℚ) (cfg : GameConfig) : Ball :=
  let speed : ℚ := 300
  let angle : ℚ := rand * tr.pi / 3 - tr.pi / 6
  { x := cfg.width / 2
    y := cfg.height / 2
    velocityX := tr.cos angle * speed
    velocityY := tr.sin angle * speed
    radius := 10
    speed := speed
    baseSpeed := speed
    maxSpeed := 700 }

/-- `createInitialPaddles()`. -/
def createInitialPaddles (cfg : GameConfig) : Paddles :=
  let verticalPaddleWidth : ℚ := 15
  let verticalPaddleHeight : ℚ := 100
  let horizontalPaddleWidth : ℚ := 100
  let horizontalPaddleHeight : ℚ := 15
  let speed : ℚ := 400
  { left :=
      { x := 20
        y := (cfg.height - verticalPaddleHeight) / 2
        width := verticalPaddleWidth
        height := verticalPaddleHeight
        speed := speed
        velocityX := 0
        velocityY := 0 }
    right :=
      { x := cfg.width - verticalPaddleWidth - 20
        y := (cfg.height - verticalPaddleHeight) / 2
        width := verticalPaddleWidth
        height := verticalPaddleHeight
        speed := speed
        velocityX := 0
        velocityY := 0 }
    top :=
      { x := (cfg.width - horizontalPaddleWidth) / 2
        y := 20
        width := horizontalPaddleWidth
        height := horizontalPaddleHeight
        speed := speed
        velocityX := 0
        velocityY := 0 }
    bottom :=
      { x := (cfg.width - horizontalPaddleWidth) / 2
        y := cfg.height - horizontalPaddleHeight - 20
        width := horizontalPaddleWidth
        height := horizontalPaddleHeight
        speed := speed
        velocityX := 0
        velocityY := 0 } }

/-- The `GameState` constructor. -/
def initState (tr : Trig) (rand : ℚ) : State :=
  let cfg : GameConfig := { width := 800, height := 600, isRunning := false }
  { gameConfig := cfg
    ball := createInitialBall tr rand cfg
    paddles := createInitialPaddles cfg
    score := 0
    lives := 3
    gameOver := false
    finalScore := 0
    reserveTeamUsed := false
    showReserveTeamOption := false }

/-- The two sequential boundary-constraint `if`s of `updatePaddles`
(lines 159-186): first snap below 0 to 0, then snap an overflowing
far edge back inside. -/
def boundaryClamp (limit size pos : ℚ) : ℚ :=
  let p1 := if pos < 0 then 0 else pos
  if p1 + size > limit then limit - size else p1

/-- `updatePaddles(deltaTime, inputState)`. -/
def updatePaddles (deltaTime : ℚ) (inputState : Input) (s : State) : State :=
  let vLeft : ℚ := match inputState.vertical with
    | some v => v * s.paddles.left.speed
    | none => 0
  let vRight : ℚ := match inputState.vertical with
    | some v => v * s.paddles.right.speed
    | none => 0
  let vTop : ℚ := match inputState.horizontal with
    | some h => h * s.paddles.top.speed
    | none => 0
  let vBottom : ℚ := match inputState.horizontal with
    | some h => h * s.paddles.bottom.speed
    | none => 0
  let newLeft := { s.paddles.left with
    velocityY := vLeft
    y := boundaryClamp s.gameConfig.height s.paddles.left.height
      (s.paddles.left.y + vLeft * deltaTime) }
  let newRight := { s.paddles.right with
    velocityY := vRight
    y := boundaryClamp s.gameConfig.height s.paddles.right.height
      (s.paddles.right.y + vRight * deltaTime) }
  let newTop := { s.paddles.top with
    velocityX := vTop
    x := boundaryClamp s.gameConfig.width s.paddles.top.width
      (s.paddles.top.x + vTop * deltaTime) }
  let newBottom := { s.paddles.bottom with
    velocityX := vBottom
    x := boundaryClamp s.gameConfig.width s.paddles.bottom.width
      (s.paddles.bottom.x + vBottom * deltaTime) }
  { s with paddles :=
      { left := newLeft, right := newRight, top := newTop, bottom := newBottom } }

/-- `updateBall(deltaTime)`. -/
def updateBall (deltaTime : ℚ) (s : State) : State :=
  { s with ball := { s.ball with
      x := s.ball.x + s.ball.velocityX * deltaTime
      y := s.ball.y + s.ball.velocityY * deltaTime } }

/-- The `shouldBounce` block of `checkSinglePaddleCollision`
(lines 337-350): escalate the speed, renormalize the outgoing velocity
to it, and award 10 points.  `nudged` is the ball after the in-branch
position nudge; `nvx`/`nvy` are the branch's `newVelocityX`/`newVelocityY`. -/
def applyBounce (tr : Trig) (s : State) (nudged : Ball) (nvx nvy : ℚ) :
    State × Bool :=
  let newSpeed := min (s.ball.speed * (107 / 100)) s.ball.maxSpeed
  let speedRatio := newSpeed / tr.sqrt (nvx * nvx + nvy * nvy)
  ({ s with
      ball := { nudged with
        speed := newSpeed
        velocityX := nvx * speedRatio
        velocityY := nvy * speedRatio }
      score := s.score + 10 }, true)

/-- `checkSinglePaddleCollision(paddleName, ballLeft, ballRight, ballTop,
ballBottom)`, instrumented to also report whether a catch was resolved.
The ball-edge arguments are the (possibly stale) bounds computed once by
`checkPaddleCollisions`. -/
def checkSinglePaddleCollisionB (tr : Trig) (name : PaddleName)
    (ballLeft ballRight ballTop ballBottom : ℚ) (s : State) : State × Bool :=
  let p := s.paddles.get name
  let paddleLeft := p.x
  let paddleRight := p.x + p.width
  let paddleTop := p.y
  let paddleBottom := p.y + p.height
  if ballRight ≥ paddleLeft ∧ ballLeft ≤ paddleRight ∧
      ballBottom ≥ paddleTop ∧ ballTop ≤ paddleBottom then
    match name with
    | .left =>
      if s.ball.velocityX < 0 then
        let hitPos := (s.ball.y - paddleTop) / p.height
        let bounceAngle := (hitPos - 1/2) * tr.pi / 3
        let nvx := |tr.cos bounceAngle * s.ball.speed|
        let nvy := tr.sin bounceAngle * s.ball.speed
        applyBounce tr s { s.ball with x := paddleRight + s.ball.radius + 1 } nvx nvy
      else (s, false)
    | .right =>
      if s.ball.velocityX > 0 then
        let hitPos := (s.ball.y - paddleTop) / p.height
        let bounceAngle := (hitPos - 1/2) * tr.pi / 3
        let nvx := -|tr.cos bounceAngle * s.ball.speed|
        let nvy := tr.sin bounceAngle * s.ball.speed
        applyBounce tr s { s.ball with x := paddleLeft - s.ball.radius - 1 } nvx nvy
      else (s, false)
    | .top =>
      if s.ball.velocityY < 0 then
        let hitPos := (s.ball.x - paddleLeft) / p.width
        let bounceAngle := (hitPos - 1/2) * tr.pi / 3
        let nvx := tr.sin bounceAngle * s.ball.speed
        let nvy := |tr.cos bounceAngle * s.ball.speed|
        applyBounce tr s { s.ball with y := paddleBottom + s.ball.radius + 1 } nvx nvy
      else (s, false)
    | .bottom =>
      if s.ball.velocityY > 0 then
        let hitPos := (s.ball.x - paddleLeft) / p.width
        let bounceAngle := (hitPos - 1/2) * tr.pi / 3
        let nvx := tr.sin bounceAngle * s.ball.speed
        let nvy := -|tr.cos bounceAngle * s.ball.speed|
        applyBounce tr s { s.ball with y := paddleTop - s.ball.radius - 1 } nvx nvy
      else (s, false)
  else (s, false)

/-- `checkPaddleCollisions()`, instrumented with the number of catches
resolved this step.  The four ball-edge values are computed once, before
any of the four sequential per-paddle checks, exactly as in the source. -/
def checkPaddleCollisionsB (tr : Trig) (s : State) : State × ℕ :=
  let ballLeft := s.ball.x - s.ball.radius
  let ballRight := s.ball.x + s.ball.radius
  let ballTop := s.ball.y - s.ball.radius
  let ballBottom := s.ball.y + s.ball.radius
  let r1 := checkSinglePaddleCollisionB tr .left ballLeft ballRight ballTop ballBottom s
  let r2 := checkSinglePaddleCollisionB tr .right ballLeft ballRight ballTop ballBottom r1.1
  let r3 := checkSinglePaddleCollisionB tr .top ballLeft ballRight ballTop ballBottom r2.1
  let r4 := checkSinglePaddleCollisionB tr .bottom ballLeft ballRight ballTop ballBottom r3.1
  (r4.1, (cond r1.2 1 0) + (cond r2.2 1 0) + (cond r3.2 1 0) + (cond r4.2 1 0))

/-- `resetBall()`. -/
def resetBall (tr : Trig) (rand : ℚ) (s : State) : State :=
  { s with ball := createInitialBall tr rand s.gameConfig }

/-- `checkWallCollisions()`: any wall hit deducts a life and respawns
the ball. -/
def checkWallCollisions (tr : Trig) (rand : ℚ) (s : State) : State :=
  let hitWall :=
    s.ball.y - s.ball.radius ≤ 0 ∨
    s.ball.y + s.ball.radius ≥ s.gameConfig.height ∨
    s.ball.x - s.ball.radius ≤ 0 ∨
    s.ball.x + s.ball.radius ≥ s.gameConfig.width
  if hitWall then resetBall tr rand { s with lives := s.lives - 1 } else s

/-- `checkGameOver()`. -/
def checkGameOver (s : State) : State :=
  if s.lives ≤ 0 then
    if ¬s.reserveTeamUsed then
      { s with showReserveTeamOption := true
               gameConfig := { s.gameConfig with isRunning := false } }
    else
      { s with gameOver := true
               gameConfig := { s.gameConfig with isRunning := false }
               finalScore := s.score }
  else s

/-- `update(deltaTime, inputState)`, instrumented with the number of
paddle catches resolved in the step. -/
def updateB (tr : Trig) (rand deltaTime : ℚ) (inputState : Input) (s : State) :
    State × ℕ :=
  if ¬s.gameConfig.isRunning ∨ s.gameOver then (s, 0)
  else
    let sp := updateBall deltaTime (updatePaddles deltaTime inputState s)
    let rc := checkPaddleCollisionsB tr sp
    (checkGameOver (checkWallCollisions tr rand rc.1), rc.2)

/-- `update(deltaTime, inputState)`. -/
def update (tr : Trig) (rand deltaTime : ℚ) (inputState : Input) (s : State) :
    State :=
  (updateB tr rand deltaTime inputState s).1

/-- One rung of the paddles part of a snapshot: each role key may be
absent. -/
structure PaddlesSnap where
  left : Option Paddle
  right : Option Paddle
  top : Option Paddle
  bottom : Option Paddle
deriving DecidableEq

/-- A (possibly incomplete) snapshot; `none` models an absent or
`undefined` top-level key. -/
structure Snapshot where
  ball : Option Ball
  paddles : Option PaddlesSnap
  gameConfig : Option GameConfig
  score : Option ℤ
  lives : Option ℤ
  gameOver : Option Bool
  finalScore : Option ℤ
deriving DecidableEq

/-- `getState()`: a plain value copy of the networked fields (note that
`reserveTeamUsed` and `showReserveTeamOption` are not exported). -/
def getState (s : State) : Snapshot :=
  { ball := some s.ball
    paddles := some
      { left := some s.paddles.left
        right := some s.paddles.right
        top := some s.paddles.top
        bottom := some s.paddles.bottom }
    gameConfig := some s.gameConfig
    score := some s.score
    lives := some s.lives
    gameOver := some s.gameOver
    finalScore := some s.finalScore }

/-- `if (state.ball) this.ball = { ...state.ball };` -/
def setStateBall (snap : Snapshot) (s : State) : State :=
  match snap.ball with
  | some b => { s with ball := b }
  | none => s

/-- The four guarded per-role assignments inside `if (state.paddles)`. -/
def setStatePaddles (snap : Snapshot) (s : State) : State :=
  match snap.paddles with
  | some ps =>
    let s := match ps.left with
      | some p => { s with paddles := { s.paddles with left := p } }
      | none => s
    let s := match ps.right with
      | some p => { s with paddles := { s.paddles with right := p } }
      | none => s
    let s := match ps.top with
      | some p => { s with paddles := { s.paddles with top := p } }
      | none => s
    match ps.bottom with
      | some p => { s with paddles := { s.paddles with bottom := p } }
      | none => s
  | none => s

/-- `if (state.gameConfig) this.gameConfig = { ...state.gameConfig };` -/
def setStateGameConfig (snap : Snapshot) (s : State) : State :=
  match snap.gameConfig with
  | some c => { s with gameConfig := c }
  | none => s

/-- `if (state.score !== undefined) this.score = state.score;` -/
def setStateScore (snap : Snapshot) (s : State) : State :=
  match snap.score with
  | some v => { s with score := v }
  | none => s

/-- `if (state.lives !== undefined) this.lives = state.lives;` -/
def setStateLives (snap : Snapshot) (s : State) : State :=
  match snap.lives with
  | some v => { s with lives := v }
  | none => s

/-- `if (state.gameOver !== undefined) this.gameOver = state.gameOver;` -/
def setStateGameOver (snap : Snapshot) (s : State) : State :=
  match snap.gameOver with
  | some v => { s with gameOver := v }
  | none => s

/-- `if (state.finalScore !== undefined) this.finalScore = state.finalScore;` -/
def setStateFinalScore (snap : Snapshot) (s : State) : State :=
  match snap.finalScore with
  | some v => { s with finalScore := v }
  | none => s

/-- `setState(state)`: the source's sequence of guarded assignments,
each applied only when its key is present. -/
def setState (snap : Snapshot) (s : State) : State :=
  setStateFinalScore snap (setStateGameOver snap (setStateLives snap
    (setStateScore snap (setStateGameConfig snap
      (setStatePaddles snap (setStateBall snap s))))))

/-- The snapshot with every top-level key absent: `setState({})`. -/
def emptySnap : Snapshot :=
  { ball := none, paddles := none, gameConfig := none, score := none,
    lives := none, gameOver := none, finalScore := none }

/-- `reset()`. -/
def reset (tr : Trig) (rand : ℚ) (s : State) : State :=
  { s with
      ball := createInitialBall tr rand s.gameConfig
      paddles := createInitialPaddles s.gameConfig
      score := 0
      lives := 3
      gameOver := false
      finalScore := 0
      reserveTeamUsed := false
      showReserveTeamOption := false
      gameConfig := { s.gameConfig with isRunning := false } }

/-- `start()`. -/
def start (s : State) : State :=
  { s with gameConfig := { s.gameConfig with isRunning := true } }

/-- `pause()`. -/
def pause (s : State) : State :=
  { s with gameConfig := { s.gameConfig with isRunning := false } }

/-- `activateReserveTeam()`, written as the source's sequence of
mutations; note that the final `resetBall()` replaces the ball (and with
it the `speed`/`maxSpeed` values multiplied two statements earlier). -/
def activateReserveTeam (tr : Trig) (rand : ℚ) (s : State) : State :=
  let s1 := { s with reserveTeamUsed := true, showReserveTeamOption := false,
                     lives := (1 : ℤ) }
  let s2 := { s1 with ball := { s1.ball with
      speed := s1.ball.speed * (8/5)
      maxSpeed := s1.ball.maxSpeed * (8/5) } }
  let pLeft := { s2.paddles.left with
    height := s2.paddles.left.height * (1/2)
    speed := s2.paddles.left.speed * (13/10) }
  let pRight := { s2.paddles.right with
    height := s2.paddles.right.height * (1/2)
    speed := s2.paddles.right.speed * (13/10) }
  let pTop := { s2.paddles.top with
    width := s2.paddles.top.width * (1/2)
    speed := s2.paddles.top.speed * (13/10) }
  let pBottom := { s2.paddles.bottom with
    width := s2.paddles.bottom.width * (1/2)
    speed := s2.paddles.bottom.speed * (13/10) }
  let s3 := { s2 with paddles :=
      { left := pLeft, right := pRight, top := pTop, bottom := pBottom } }
  let s4 := resetBall tr rand s3
  { s4 with gameConfig := { s4.gameConfig with isRunning := true } }

/-- `declineReserveTeam()`. -/
def declineReserveTeam (s : State) : State :=
  { s with showReserveTeamOption := false
           gameOver := true
           finalScore := s.score }

/-- A public operation on the four-paddle `GameState`.  Operations whose
source calls `Math.random()` (directly or through `resetBall`) carry the
value that call returns. -/
inductive Op where
  | update (rand deltaTime : ℚ) (inputState : Input)
  | start
  | pause
  | reset (rand : ℚ)
  | activateReserveTeam (rand : ℚ)
  | declineReserveTeam
deriving DecidableEq

/-- Interpretation of one public operation. -/
def Op.apply (tr : Trig) : Op → State → State
  | .update rand dt inp, s => FourPaddle.update tr rand dt inp s
  | .start, s => FourPaddle.start s
  | .pause, s => FourPaddle.pause s
  | .reset rand, s => FourPaddle.reset tr rand s
  | .activateReserveTeam rand, s => FourPaddle.activateReserveTeam tr rand s
  | .declineReserveTeam, s => FourPaddle.declineReserveTeam s

/-- Run a sequence of public operations. -/
def runOps (tr : Trig) (ops : List Op) (s : State) : State :=
  ops.foldl (fun t op => op.apply tr t) s

/-- Run a sequence of `update` calls; each list element supplies the
`Math.random()` value for a potential respawn, the `deltaTime`, and the
`inputState` of one call. -/
def runUpdates (tr : Trig) (steps : List (ℚ × ℚ × Input)) (s : State) : State :=
  steps.foldl (fun t st => update tr st.1 st.2.1 st.2.2 t) s

/-- The per-catch speed escalation of `checkSinglePaddleCollision`
(line 340): `Math.min(this.ball.speed * speedMultiplier, this.ball.maxSpeed)`
with `speedMultiplier = 1.07`. -/
def escalate (maxSpeed s : ℚ) : ℚ :=
  min (s * (107 / 100)) maxSpeed

/-- Each paddle's bounding box lies fully inside the play field on its
movement axis. -/
def paddlesInBounds (s : State) : Prop :=
  0 ≤ s.paddles.left.y ∧
  s.paddles.left.y + s.paddles.left.height ≤ s.gameConfig.height ∧
  0 ≤ s.paddles.right.y ∧
  s.paddles.right.y + s.paddles.right.height ≤ s.gameConfig.height ∧
  0 ≤ s.paddles.top.x ∧
  s.paddles.top.x + s.paddles.top.width ≤ s.gameConfig.width ∧
  0 ≤ s.paddles.bottom.x ∧
  s.paddles.bottom.x + s.paddles.bottom.width ≤ s.gameConfig.width

instance (s : State) : Decidable (paddlesInBounds s) := by
  unfold paddlesInBounds; infer_instance

/-- Each paddle's long-axis size fits in the play field (an auxiliary
invariant: it makes the boundary clamp of `updatePaddles` sound). -/
def paddleSizesFit (s : State) : Prop :=
  s.paddles.left.height ≤ s.gameConfig.height ∧
  s.paddles.right.height ≤ s.gameConfig.height ∧
  s.paddles.top.width ≤ s.gameConfig.width ∧
  s.paddles.bottom.width ≤ s.gameConfig.width

instance (s : State) : Decidable (paddleSizesFit s) := by
  unfold paddleSizesFit; infer_instance

/-- Auxiliary invariant for the lives counter: lives are non-negative,
and at least 1 while the match is actually running. -/
def livesInv (s : State) : Prop :=
  0 ≤ s.lives ∧
  (s.gameConfig.isRunning = true ∧ s.gameOver = false → 1 ≤ s.lives)

/-- The guard on one operation: `start()` is only legitimate from a
state with a positive lives counter or with `gameOver` already set. -/
def startGuard : Op → State → Bool
  | .start, s => decide (0 < s.lives) || s.gameOver
  | _, _ => true

/-- A trace of public operations is guarded when every `start()` in it
satisfies `startGuard` at its point of invocation. -/
def livesGuardOK (tr : Trig) : State → List Op → Bool
  | _, [] => true
  | s, op :: rest => startGuard op s && livesGuardOK tr (op.apply tr s) rest

end FourPaddle

namespace PongGame

/-- Ball object of `src/pong-game/public/GameState.js`. -/
structure Ball where
  x : ℚ
  y : ℚ
  vx : ℚ
  vy : ℚ
  radius : ℚ
deriving DecidableEq

/-- Paddle object. -/
structure Paddle where
  x : ℚ
  y : ℚ
  width : ℚ
  height : ℚ
  speed : ℚ
deriving DecidableEq

/-- `this.bounds`. -/
structure Bounds where
  width : ℚ
  height : ℚ
deriving DecidableEq

/-- The whole mutable state of the legacy classic `GameState`. -/
structure State where
  ball : Ball
  paddle : Paddle
  bounds : Bounds
  score : ℤ
deriving DecidableEq

/-- Input state `{up, down}`. -/
structure Input where
  up : Bool
  down : Bool
deriving DecidableEq

/-- `reset()`: the fixed initial state (also installed by the
constructor). -/
def resetState : State :=
  { ball := { x := 400, y := 300, vx := 200, vy := 150, radius := 10 }
    paddle := { x := 750, y := 250, width := 15, height := 100, speed := 300 }
    bounds := { width := 800, height := 600 }
    score := 0 }

/-- Paddle-movement phase of `update` (lines 32-41): the two guarded
moves followed by the clamp to bounds. -/
def movePaddle (deltaTime : ℚ) (inputState : Input) (s : State) : State :=
  let y1 := if inputState.up ∧ s.paddle.y > 0
    then s.paddle.y - s.paddle.speed * deltaTime else s.paddle.y
  let y2 := if inputState.down ∧ y1 + s.paddle.height < s.bounds.height
    then y1 + s.paddle.speed * deltaTime else y1
  let y3 := max 0 (min y2 (s.bounds.height - s.paddle.height))
  { s with paddle := { s.paddle with y := y3 } }

/-- Ball-movement phase of `update` (lines 43-45). -/
def moveBall (deltaTime : ℚ) (s : State) : State :=
  { s with ball := { s.ball with
      x := s.ball.x + s.ball.vx * deltaTime
      y := s.ball.y + s.ball.vy * deltaTime } }

/-- Top/bottom-wall phase of `update` (lines 47-51): crossing either
horizontal boundary negates `vy` and clamps `y` back inside. -/
def wallTB (s : State) : State :=
  if s.ball.y - s.ball.radius ≤ 0 ∨ s.ball.y + s.ball.radius ≥ s.bounds.height
  then { s with ball := { s.ball with
      vy := -s.ball.vy
      y := max s.ball.radius (min s.ball.y (s.bounds.height - s.ball.radius)) } }
  else s

/-- Paddle-collision phase of `update` (lines 53-72), instrumented with
whether the catch happened. -/
def paddleHitB (tr : Trig) (s : State) : State × Bool :=
  if s.ball.x + s.ball.radius ≥ s.paddle.x ∧
      s.ball.x - s.ball.radius ≤ s.paddle.x + s.paddle.width ∧
      s.ball.y ≥ s.paddle.y ∧ s.ball.y ≤ s.paddle.y + s.paddle.height then
    let paddleCenter := s.paddle.y + s.paddle.height / 2
    let hitPos := (s.ball.y - paddleCenter) / (s.paddle.height / 2)
    let bounceAngle := hitPos * tr.pi / 4
    let speed := tr.sqrt (s.ball.vx * s.ball.vx + s.ball.vy * s.ball.vy)
    ({ s with
        ball := { s.ball with
          vx := -|tr.cos bounceAngle * speed|
          vy := tr.sin bounceAngle * speed
          x := s.paddle.x - s.ball.radius }
        score := s.score + 1 }, true)
  else (s, false)

/-- Left-wall phase of `update` (lines 74-77), instrumented: crossing
the left boundary resets the whole game. -/
def leftResetB (s : State) : State × Bool :=
  if s.ball.x - s.ball.radius ≤ 0 then (resetState, true) else (s, false)

/-- Right-wall phase of `update` (lines 79-83): crossing the right
boundary negates `vx` and clamps `x` back inside. -/
def rightWall (s : State) : State :=
  if s.ball.x + s.ball.radius ≥ s.bounds.width
  then { s with ball := { s.ball with
      vx := -s.ball.vx
      x := s.bounds.width - s.ball.radius } }
  else s

/-- `update(deltaTime, inputState)`, instrumented with (catch resolved,
game was reset) flags. -/
def updateB (tr : Trig) (deltaTime : ℚ) (inputState : Input) (s : State) :
    State × Bool × Bool :=
  let s1 := moveBall deltaTime (movePaddle deltaTime inputState s)
  let s2 := wallTB s1
  let r3 := paddleHitB tr s2
  let r4 := leftResetB r3.1
  (rightWall r4.1, r3.2, r4.2)

/-- `update(deltaTime, inputState)`. -/
def update (tr : Trig) (deltaTime : ℚ) (inputState : Input) (s : State) :
    State :=
  (updateB tr deltaTime inputState s).1

end PongGame

/-! Concrete instantiations used by witnesses and counterexamples.
`tr0` is one legitimate interpretation of the abstracted ambient math
functions: its cosine/sine pair satisfies cos² + sin² = 1 everywhere,
and its square root is only ever consulted at 300² in the runs below. -/

/-- A concrete interpretation of the ambient math functions. -/
def tr0 : Trig := { cos := fun _ => 1, sin := fun _ => 0, sqrt := fun _ => 300, pi := 0 }

/-- The empty four-paddle input (`update(dt)` with no keys pressed). -/
def inp0 : FourPaddle.Input := { vertical := none, horizontal := none }

/-- One `update` call with `deltaTime = 2` and no input: under `tr0` the
fresh ball travels from the center past the right wall in one step, so
each such call costs exactly one life. -/
def u2 : FourPaddle.Op := .update 0 2 inp0

/-- A four-paddle state whose ball is just about to be caught by the
right paddle (moving right, overlapping it). -/
def sC : FourPaddle.State :=
  { gameConfig := { width := 800, height := 600, isRunning := true }
    ball := { x := 760, y := 300, velocityX := 300, velocityY := 0, radius := 10,
              speed := 300, baseSpeed := 300, maxSpeed := 700 }
    paddles := FourPaddle.createInitialPaddles
      { width := 800, height := 600, isRunning := true }
    score := 0
    lives := 3
    gameOver := false
    finalScore := 0
    reserveTeamUsed := false
    showReserveTeamOption := false }

/-- The state reached from a fresh four-paddle match by `start()` and
three life-losing updates: lives exhausted, reserve offer pending. -/
def sOffer : FourPaddle.State :=
  FourPaddle.runOps tr0 [.start, u2, u2, u2] (FourPaddle.initState tr0 0)

/-- The state `activateReserveTeam()` produces from `sOffer`. -/
def sRes : FourPaddle.State :=
  FourPaddle.activateReserveTeam tr0 0 sOffer

/-- The empty classic input. -/
def pinp0 : PongGame.Input := { up := false, down := false }

/-- A classic (pong-game) state whose ball edge is past the right
boundary and outside the paddle's vertical span. -/
def s8 : PongGame.State :=
  { PongGame.resetState with
      ball := { x := 795, y := 100, vx := 200, vy := 0, radius := 10 } }

/-! ## Lemmas about `setState` -/

theorem setStateBall_eq (snap : FourPaddle.Snapshot) (s : FourPaddle.State) :
    FourPaddle.setStateBall snap s = { s with ball := snap.ball.getD s.ball } := by
  cases h : snap.ball <;> simp [FourPaddle.setStateBall, h]

theorem setStatePaddles_eq (snap : FourPaddle.Snapshot) (s : FourPaddle.State) :
    FourPaddle.setStatePaddles snap s = { s with paddles :=
      { left := (snap.paddles.bind FourPaddle.PaddlesSnap.left).getD s.paddles.left
        right := (snap.paddles.bind FourPaddle.PaddlesSnap.right).getD s.paddles.right
        top := (snap.paddles.bind FourPaddle.PaddlesSnap.top).getD s.paddles.top
        bottom := (snap.paddles.bind FourPaddle.PaddlesSnap.bottom).getD s.paddles.bottom } } := by
  cases h : snap.paddles with
  | none => simp [FourPaddle.setStatePaddles, h]
  | some ps =>
    rcases ps with ⟨pl, pr, pt, pb⟩
    cases pl <;> cases pr <;> cases pt <;> cases pb <;>
      simp [FourPaddle.setStatePaddles, h]

theorem setStateGameConfig_eq (snap : FourPaddle.Snapshot) (s : FourPaddle.State) :
    FourPaddle.setStateGameConfig snap s
      = { s with gameConfig := snap.gameConfig.getD s.gameConfig } := by
  cases h : snap.gameConfig <;> simp [FourPaddle.setStateGameConfig, h]

theorem setStateScore_eq (snap : FourPaddle.Snapshot) (s : FourPaddle.State) :
    FourPaddle.setStateScore snap s = { s with score := snap.score.getD s.score } := by
  cases h : snap.score <;> simp [FourPaddle.setStateScore, h]

theorem setStateLives_eq (snap : FourPaddle.Snapshot) (s : FourPaddle.State) :
    FourPaddle.setStateLives snap s = { s with lives := snap.lives.getD s.lives } := by
  cases h : snap.lives <;> simp [FourPaddle.setStateLives, h]

theorem setStateGameOver_eq (snap : FourPaddle.Snapshot) (s : FourPaddle.State) :
    FourPaddle.setStateGameOver snap s
      = { s with gameOver := snap.gameOver.getD s.gameOver } := by
  cases h : snap.gameOver <;> simp [FourPaddle.setStateGameOver, h]

theorem setStateFinalScore_eq (snap : FourPaddle.Snapshot) (s : FourPaddle.State) :
    FourPaddle.setStateFinalScore snap s
      = { s with finalScore := snap.finalScore.getD s.finalScore } := by
  cases h : snap.finalScore <;> simp [FourPaddle.setStateFinalScore, h]

/-- Normal form of `setState`: each field is replaced exactly when its
key is present, and the reserve flags are untouched. -/
theorem setState_eq (snap : FourPaddle.Snapshot) (s : FourPaddle.State) :
    FourPaddle.setState snap s =
      { gameConfig := snap.gameConfig.getD s.gameConfig
        ball := snap.ball.getD s.ball
        paddles :=
          { left := (snap.paddles.bind FourPaddle.PaddlesSnap.left).getD s.paddles.left
            right := (snap.paddles.bind FourPaddle.PaddlesSnap.right).getD s.paddles.right
            top := (snap.paddles.bind FourPaddle.PaddlesSnap.top).getD s.paddles.top
            bottom := (snap.paddles.bind FourPaddle.PaddlesSnap.bottom).getD s.paddles.bottom }
        score := snap.score.getD s.score
        lives := snap.lives.getD s.lives
        gameOver := snap.gameOver.getD s.gameOver
        finalScore := snap.finalScore.getD s.finalScore
        reserveTeamUsed := s.reserveTeamUsed
        showReserveTeamOption := s.showReserveTeamOption } := by
  simp [FourPaddle.setState, setStateBall_eq, setStatePaddles_eq,
    setStateGameConfig_eq, setStateScore_eq, setStateLives_eq,
    setStateGameOver_eq, setStateFinalScore_eq]

/-! ## Claim theorems: snapshot codec -/

/-- Claim C6: `setState` applies only the top-level keys that are
present, leaves every field whose key is absent unchanged (expressed as
an `Option.getD` normal form per field, which covers both directions),
and `setState({})` is a complete no-op. -/
theorem c6_setState_merges_present_keys
    (snap : FourPaddle.Snapshot) (s : FourPaddle.State) :
    FourPaddle.setState FourPaddle.emptySnap s = s
    ∧ (FourPaddle.setState snap s).ball = snap.ball.getD s.ball
    ∧ (FourPaddle.setState snap s).paddles.left
        = (snap.paddles.bind FourPaddle.PaddlesSnap.left).getD s.paddles.left
    ∧ (FourPaddle.setState snap s).paddles.right
        = (snap.paddles.bind FourPaddle.PaddlesSnap.right).getD s.paddles.right
    ∧ (FourPaddle.setState snap s).paddles.top
        = (snap.paddles.bind FourPaddle.PaddlesSnap.top).getD s.paddles.top
    ∧ (FourPaddle.setState snap s).paddles.bottom
        = (snap.paddles.bind FourPaddle.PaddlesSnap.bottom).getD s.paddles.bottom
    ∧ (FourPaddle.setState snap s).gameConfig = snap.gameConfig.getD s.gameConfig
    ∧ (FourPaddle.setState snap s).score = snap.score.getD s.score
    ∧ (FourPaddle.setState snap s).lives = snap.lives.getD s.lives
    ∧ (FourPaddle.setState snap s).gameOver = snap.gameOver.getD s.gameOver
    ∧ (FourPaddle.setState snap s).finalScore = snap.finalScore.getD s.finalScore := by
  refine ⟨?_, ?_, ?_, ?_, ?_, ?_, ?_, ?_, ?_, ?_, ?_⟩ <;>
    simp [setState_eq, FourPaddle.emptySnap]

/-- Claim C7: the snapshot round-trip `setState(getState())` restores
the state exactly, so the next `update` call (any arguments) behaves
identically; in this value-level model the returned snapshot is a copy
by construction, so holding it cannot alias simulation internals. -/
theorem c7_snapshot_roundtrip (tr : Trig) (rand deltaTime : ℚ)
    (inp : FourPaddle.Input) (s : FourPaddle.State) :
    FourPaddle.setState (FourPaddle.getState s) s = s
    ∧ FourPaddle.update tr rand deltaTime inp
        (FourPaddle.setState (FourPaddle.getState s) s)
      = FourPaddle.update tr rand deltaTime inp s := by
  have h : FourPaddle.setState (FourPaddle.getState s) s = s := by
    simp [setState_eq, FourPaddle.getState]
  exact ⟨h, by rw [h]⟩

/-- Claim C10: the one-shot reserve flags are internal to the snapshot
interface: `getState` does not depend on them (its result has no such
keys), and `setState` leaves both unchanged for every snapshot. -/
theorem c10_reserve_flags_internal (snap : FourPaddle.Snapshot)
    (s : FourPaddle.State) (b1 b2 : Bool) :
    (FourPaddle.setState snap s).reserveTeamUsed = s.reserveTeamUsed
    ∧ (FourPaddle.setState snap s).showReserveTeamOption = s.showReserveTeamOption
    ∧ FourPaddle.getState
        { s with reserveTeamUsed := b1, showReserveTeamOption := b2 }
      = FourPaddle.getState s := by
  refine ⟨?_, ?_, rfl⟩ <;> simp [setState_eq]

/-! ## Claim theorems: update guard -/

/-- Claim C3: calling `update` while the running flag is false, or
while `gameOver` is true, leaves the entire simulation state unchanged. -/
theorem c3_update_noop_when_stopped (tr : Trig) (rand deltaTime : ℚ)
    (inp : FourPaddle.Input) (s : FourPaddle.State)
    (h : s.gameConfig.isRunning = false ∨ s.gameOver = true) :
    FourPaddle.update tr rand deltaTime inp s = s := by
  rcases h with h | h <;> simp [FourPaddle.update, FourPaddle.updateB, h]

/-- Witness for C3: a fresh (not yet started) match is left unchanged
by an `update` call. -/
theorem c3_update_noop_when_stopped_witness :
    ((FourPaddle.initState tr0 0).gameConfig.isRunning = false
      ∨ (FourPaddle.initState tr0 0).gameOver = true)
    ∧ FourPaddle.update tr0 0 1 inp0 (FourPaddle.initState tr0 0)
      = FourPaddle.initState tr0 0 :=
  ⟨Or.inl rfl,
    c3_update_noop_when_stopped tr0 0 1 inp0 (FourPaddle.initState tr0 0)
      (Or.inl rfl)⟩

/-! ## Structure lemmas about the four-paddle step functions -/

/-- `update` is a no-op when the match is not running or already over. -/
theorem update_stopped (tr : Trig) (rand deltaTime : ℚ) (inp : FourPaddle.Input)
    (s : FourPaddle.State)
    (h : s.gameConfig.isRunning = false ∨ s.gameOver = true) :
    FourPaddle.update tr rand deltaTime inp s = s := by
  rcases h with h | h <;> simp [FourPaddle.update, FourPaddle.updateB, h]

/-- When the match is running, `update` is the phase pipeline. -/
theorem update_running (tr : Trig) (rand deltaTime : ℚ) (inp : FourPaddle.Input)
    (s : FourPaddle.State)
    (hR : s.gameConfig.isRunning = true) (hG : s.gameOver = false) :
    FourPaddle.update tr rand deltaTime inp s
      = FourPaddle.checkGameOver (FourPaddle.checkWallCollisions tr rand
          (FourPaddle.checkPaddleCollisionsB tr
            (FourPaddle.updateBall deltaTime
              (FourPaddle.updatePaddles deltaTime inp s))).1)
    ∧ (FourPaddle.updateB tr rand deltaTime inp s).2
      = (FourPaddle.checkPaddleCollisionsB tr
          (FourPaddle.updateBall deltaTime
            (FourPaddle.updatePaddles deltaTime inp s))).2 := by
  constructor <;> simp [FourPaddle.update, FourPaddle.updateB, hR, hG]

/-- A single paddle check only ever touches the ball and the score. -/
theorem checkSingle_shape (tr : Trig) (name : FourPaddle.PaddleName)
    (bl br bt bb : ℚ) (s : FourPaddle.State) :
    ∃ b sc, (FourPaddle.checkSinglePaddleCollisionB tr name bl br bt bb s).1
      = { s with ball := b, score := sc } := by
  cases name <;>
    simp only [FourPaddle.checkSinglePaddleCollisionB, FourPaddle.applyBounce,
      FourPaddle.Paddles.get] <;>
    split_ifs <;> exact ⟨_, _, rfl⟩

/-- A single paddle check adds 10 points exactly when it resolves a
catch. -/
theorem checkSingle_score (tr : Trig) (name : FourPaddle.PaddleName)
    (bl br bt bb : ℚ) (s : FourPaddle.State) :
    (FourPaddle.checkSinglePaddleCollisionB tr name bl br bt bb s).1.score
      = s.score +
        (if (FourPaddle.checkSinglePaddleCollisionB tr name bl br bt bb s).2 = true
         then 10 else 0) := by
  cases name <;>
    simp only [FourPaddle.checkSinglePaddleCollisionB, FourPaddle.applyBounce,
      FourPaddle.Paddles.get] <;>
    split_ifs <;> simp_all

/-- The four-paddle collision pass only ever touches the ball and the
score. -/
theorem checkPaddleCollisionsB_shape (tr : Trig) (s : FourPaddle.State) :
    ∃ b sc, (FourPaddle.checkPaddleCollisionsB tr s).1
      = { s with ball := b, score := sc } := by
  simp only [FourPaddle.checkPaddleCollisionsB]
  obtain ⟨b1, c1, h1⟩ := checkSingle_shape tr .left (s.ball.x - s.ball.radius)
    (s.ball.x + s.ball.radius) (s.ball.y - s.ball.radius) (s.ball.y + s.ball.radius) s
  rw [h1]
  obtain ⟨b2, c2, h2⟩ := checkSingle_shape tr .right (s.ball.x - s.ball.radius)
    (s.ball.x + s.ball.radius) (s.ball.y - s.ball.radius) (s.ball.y + s.ball.radius)
    { s with ball := b1, score := c1 }
  rw [h2]
  obtain ⟨b3, c3, h3⟩ := checkSingle_shape tr .top (s.ball.x - s.ball.radius)
    (s.ball.x + s.ball.radius) (s.ball.y - s.ball.radius) (s.ball.y + s.ball.radius)
    { s with ball := b2, score := c2 }
  rw [h3]
  obtain ⟨b4, c4, h4⟩ := checkSingle_shape tr .bottom (s.ball.x - s.ball.radius)
    (s.ball.x + s.ball.radius) (s.ball.y - s.ball.radius) (s.ball.y + s.ball.radius)
    { s with ball := b3, score := c3 }
  rw [h4]
  exact ⟨b4, c4, rfl⟩

/-- Frame of the collision pass: every field but the ball and the score
is preserved. -/
theorem checkPaddleCollisionsB_frame (tr : Trig) (s : FourPaddle.State) :
    (FourPaddle.checkPaddleCollisionsB tr s).1.paddles = s.paddles
    ∧ (FourPaddle.checkPaddleCollisionsB tr s).1.gameConfig = s.gameConfig
    ∧ (FourPaddle.checkPaddleCollisionsB tr s).1.lives = s.lives
    ∧ (FourPaddle.checkPaddleCollisionsB tr s).1.gameOver = s.gameOver
    ∧ (FourPaddle.checkPaddleCollisionsB tr s).1.reserveTeamUsed = s.reserveTeamUsed
    ∧ (FourPaddle.checkPaddleCollisionsB tr s).1.showReserveTeamOption
        = s.showReserveTeamOption := by
  obtain ⟨b, c, hs⟩ := checkPaddleCollisionsB_shape tr s
  rw [hs]
  exact ⟨rfl, rfl, rfl, rfl, rfl, rfl⟩

/-- Frame of the wall pass: every field but the ball and the lives
counter is preserved. -/
theorem checkWallCollisions_frame (tr : Trig) (rand : ℚ) (s : FourPaddle.State) :
    (FourPaddle.checkWallCollisions tr rand s).paddles = s.paddles
    ∧ (FourPaddle.checkWallCollisions tr rand s).gameConfig = s.gameConfig
    ∧ (FourPaddle.checkWallCollisions tr rand s).score = s.score
    ∧ (FourPaddle.checkWallCollisions tr rand s).gameOver = s.gameOver
    ∧ (FourPaddle.checkWallCollisions tr rand s).reserveTeamUsed = s.reserveTeamUsed
    ∧ (FourPaddle.checkWallCollisions tr rand s).showReserveTeamOption
        = s.showReserveTeamOption := by
  simp only [FourPaddle.checkWallCollisions, FourPaddle.resetBall]
  split_ifs <;> exact ⟨rfl, rfl, rfl, rfl, rfl, rfl⟩

/-- The wall pass either does nothing or deducts one life and respawns
the ball. -/
theorem checkWallCollisions_shape (tr : Trig) (rand : ℚ) (s : FourPaddle.State) :
    FourPaddle.checkWallCollisions tr rand s = s
    ∨ FourPaddle.checkWallCollisions tr rand s
      = { s with lives := s.lives - 1,
                 ball := FourPaddle.createInitialBall tr rand s.gameConfig } := by
  simp only [FourPaddle.checkWallCollisions, FourPaddle.resetBall]
  split_ifs with h
  · right; rfl
  · left; rfl

/-- `checkGameOver` never touches the paddles, the field dimensions, the
lives counter, the score, or the ball. -/
theorem checkGameOver_frame (s : FourPaddle.State) :
    (FourPaddle.checkGameOver s).paddles = s.paddles
    ∧ (FourPaddle.checkGameOver s).gameConfig.width = s.gameConfig.width
    ∧ (FourPaddle.checkGameOver s).gameConfig.height = s.gameConfig.height
    ∧ (FourPaddle.checkGameOver s).lives = s.lives
    ∧ (FourPaddle.checkGameOver s).score = s.score
    ∧ (FourPaddle.checkGameOver s).ball = s.ball := by
  unfold FourPaddle.checkGameOver
  split_ifs <;> simp

/-- `checkGameOver` does nothing while lives remain. -/
theorem checkGameOver_of_pos (s : FourPaddle.State) (h : 0 < s.lives) :
    FourPaddle.checkGameOver s = s := by
  unfold FourPaddle.checkGameOver
  rw [if_neg (by omega)]

/-- `checkGameOver` stops the match when lives are exhausted. -/
theorem checkGameOver_stops (s : FourPaddle.State) (h : s.lives ≤ 0) :
    (FourPaddle.checkGameOver s).gameConfig.isRunning = false := by
  unfold FourPaddle.checkGameOver
  rw [if_pos h]
  split_ifs <;> rfl

/-- The boundary constraints of `updatePaddles` put a paddle's movement
axis fully inside the field, for any incoming position, as soon as the
paddle fits. -/
theorem boundaryClamp_bounds (limit size pos : ℚ) (hs : size ≤ limit) :
    0 ≤ FourPaddle.boundaryClamp limit size pos
    ∧ FourPaddle.boundaryClamp limit size pos + size ≤ limit := by
  simp only [FourPaddle.boundaryClamp]
  split_ifs <;> constructor <;> linarith

/-- `updatePaddles` preserves the field dimensions and the paddle
sizes. -/
theorem updatePaddles_geometry (deltaTime : ℚ) (inp : FourPaddle.Input)
    (s : FourPaddle.State) :
    (FourPaddle.updatePaddles deltaTime inp s).gameConfig = s.gameConfig
    ∧ (FourPaddle.updatePaddles deltaTime inp s).paddles.left.height
        = s.paddles.left.height
    ∧ (FourPaddle.updatePaddles deltaTime inp s).paddles.right.height
        = s.paddles.right.height
    ∧ (FourPaddle.updatePaddles deltaTime inp s).paddles.top.width
        = s.paddles.top.width
    ∧ (FourPaddle.updatePaddles deltaTime inp s).paddles.bottom.width
        = s.paddles.bottom.width :=
  ⟨rfl, rfl, rfl, rfl, rfl⟩

/-- After `updatePaddles`, every paddle is in bounds (the clamp
establishes the invariant from any position). -/
theorem updatePaddles_inBounds (deltaTime : ℚ) (inp : FourPaddle.Input)
    (s : FourPaddle.State) (h : FourPaddle.paddleSizesFit s) :
    FourPaddle.paddlesInBounds (FourPaddle.updatePaddles deltaTime inp s) := by
  obtain ⟨h1, h2, h3, h4⟩ := h
  refine ⟨(boundaryClamp_bounds _ _ _ h1).1, (boundaryClamp_bounds _ _ _ h1).2,
    (boundaryClamp_bounds _ _ _ h2).1, (boundaryClamp_bounds _ _ _ h2).2,
    (boundaryClamp_bounds _ _ _ h3).1, (boundaryClamp_bounds _ _ _ h3).2,
    (boundaryClamp_bounds _ _ _ h4).1, (boundaryClamp_bounds _ _ _ h4).2⟩

/-- Transport of `paddlesInBounds` along preserved fields. -/
theorem paddlesInBounds_congr {t u : FourPaddle.State}
    (hp : t.paddles = u.paddles)
    (hw : t.gameConfig.width = u.gameConfig.width)
    (hh : t.gameConfig.height = u.gameConfig.height) :
    FourPaddle.paddlesInBounds t ↔ FourPaddle.paddlesInBounds u := by
  unfold FourPaddle.paddlesInBounds
  rw [hp, hw, hh]

/-- Transport of `paddleSizesFit` along preserved fields. -/
theorem paddleSizesFit_congr {t u : FourPaddle.State}
    (hp : t.paddles = u.paddles)
    (hw : t.gameConfig.width = u.gameConfig.width)
    (hh : t.gameConfig.height = u.gameConfig.height) :
    FourPaddle.paddleSizesFit t ↔ FourPaddle.paddleSizesFit u := by
  unfold FourPaddle.paddleSizesFit
  rw [hp, hw, hh]

/-- One running or stopped `update` step preserves the paddle-geometry
invariant pair. -/
theorem update_inv (tr : Trig) (rand deltaTime : ℚ) (inp : FourPaddle.Input)
    (s : FourPaddle.State)
    (h : FourPaddle.paddleSizesFit s) (hb : FourPaddle.paddlesInBounds s) :
    FourPaddle.paddleSizesFit (FourPaddle.update tr rand deltaTime inp s)
    ∧ FourPaddle.paddlesInBounds (FourPaddle.update tr rand deltaTime inp s) := by
  cases hR : s.gameConfig.isRunning with
  | false => rw [update_stopped tr rand deltaTime inp s (Or.inl hR)]; exact ⟨h, hb⟩
  | true =>
    cases hG : s.gameOver with
    | true => rw [update_stopped tr rand deltaTime inp s (Or.inr hG)]; exact ⟨h, hb⟩
    | false =>
      rw [(update_running tr rand deltaTime inp s hR hG).1]
      have hg1 := updatePaddles_geometry deltaTime inp s
      have hfit1 : FourPaddle.paddleSizesFit (FourPaddle.updatePaddles deltaTime inp s) := by
        obtain ⟨h1, h2, h3, h4⟩ := h
        refine ⟨?_, ?_, ?_, ?_⟩ <;>
          simp only [hg1.1, hg1.2.1, hg1.2.2.1, hg1.2.2.2.1, hg1.2.2.2.2] <;>
          assumption
      have hin1 : FourPaddle.paddlesInBounds (FourPaddle.updatePaddles deltaTime inp s) :=
        updatePaddles_inBounds deltaTime inp s h
      have hX := checkPaddleCollisionsB_frame tr
        (FourPaddle.updateBall deltaTime (FourPaddle.updatePaddles deltaTime inp s))
      have hW := checkWallCollisions_frame tr rand
        (FourPaddle.checkPaddleCollisionsB tr (FourPaddle.updateBall deltaTime
          (FourPaddle.updatePaddles deltaTime inp s))).1
      have hfr := checkGameOver_frame (FourPaddle.checkWallCollisions tr rand
        (FourPaddle.checkPaddleCollisionsB tr (FourPaddle.updateBall deltaTime
          (FourPaddle.updatePaddles deltaTime inp s))).1)
      have hTp : (FourPaddle.checkGameOver (FourPaddle.checkWallCollisions tr rand
          (FourPaddle.checkPaddleCollisionsB tr (FourPaddle.updateBall deltaTime
            (FourPaddle.updatePaddles deltaTime inp s))).1)).paddles
          = (FourPaddle.updatePaddles deltaTime inp s).paddles := by
        rw [hfr.1, hW.1, hX.1]; rfl
      have hTw : (FourPaddle.checkGameOver (FourPaddle.checkWallCollisions tr rand
          (FourPaddle.checkPaddleCollisionsB tr (FourPaddle.updateBall deltaTime
            (FourPaddle.updatePaddles deltaTime inp s))).1)).gameConfig.width
          = (FourPaddle.updatePaddles deltaTime inp s).gameConfig.width := by
        rw [hfr.2.1, hW.2.1, hX.2.1]; rfl
      have hTh : (FourPaddle.checkGameOver (FourPaddle.checkWallCollisions tr rand
          (FourPaddle.checkPaddleCollisionsB tr (FourPaddle.updateBall deltaTime
            (FourPaddle.updatePaddles deltaTime inp s))).1)).gameConfig.height
          = (FourPaddle.updatePaddles deltaTime inp s).gameConfig.height := by
        rw [hfr.2.2.1, hW.2.1, hX.2.1]; rfl
      exact ⟨(paddleSizesFit_congr hTp hTw hTh).mpr hfit1,
        (paddlesInBounds_congr hTp hTw hTh).mpr hin1⟩

/-- The paddle-geometry invariant pair holds along any sequence of
`update` calls. -/
theorem runUpdates_inv (tr : Trig) (steps : List (ℚ × ℚ × FourPaddle.Input)) :
    ∀ s : FourPaddle.State, FourPaddle.paddleSizesFit s →
      FourPaddle.paddlesInBounds s →
      FourPaddle.paddleSizesFit (FourPaddle.runUpdates tr steps s)
      ∧ FourPaddle.paddlesInBounds (FourPaddle.runUpdates tr steps s) := by
  induction steps with
  | nil => exact fun s hf hbnd => ⟨hf, hbnd⟩
  | cons st rest ih =>
    intro s hf hbnd
    have hstep := update_inv tr st.1 st.2.1 st.2.2 s hf hbnd
    simpa [FourPaddle.runUpdates, List.foldl_cons] using
      ih (FourPaddle.update tr st.1 st.2.1 st.2.2 s) hstep.1 hstep.2

/-- The `shouldBounce` block: the escalated speed is the exact magnitude
of the outgoing velocity, provided the branch velocities' square sum is
the squared incoming speed and the square root is exact there. -/
theorem applyBounce_ball (tr : Trig) (s : FourPaddle.State) (nudged : FourPaddle.Ball)
    (nvx nvy : ℚ)
    (hsum : nvx * nvx + nvy * nvy = s.ball.speed ^ 2)
    (hsq : tr.sqrt (s.ball.speed ^ 2) = s.ball.speed)
    (hsp : 0 < s.ball.speed) :
    (FourPaddle.applyBounce tr s nudged nvx nvy).1.ball.speed
        = min (s.ball.speed * (107 / 100)) s.ball.maxSpeed
    ∧ (FourPaddle.applyBounce tr s nudged nvx nvy).1.ball.maxSpeed = nudged.maxSpeed
    ∧ (FourPaddle.applyBounce tr s nudged nvx nvy).1.ball.velocityX ^ 2
        + (FourPaddle.applyBounce tr s nudged nvx nvy).1.ball.velocityY ^ 2
      = (FourPaddle.applyBounce tr s nudged nvx nvy).1.ball.speed ^ 2 := by
  refine ⟨rfl, rfl, ?_⟩
  have hne : s.ball.speed ≠ 0 := ne_of_gt hsp
  show (nvx * ((min (s.ball.speed * (107 / 100)) s.ball.maxSpeed)
        / tr.sqrt (nvx * nvx + nvy * nvy))) ^ 2
      + (nvy * ((min (s.ball.speed * (107 / 100)) s.ball.maxSpeed)
        / tr.sqrt (nvx * nvx + nvy * nvy))) ^ 2
    = (min (s.ball.speed * (107 / 100)) s.ball.maxSpeed) ^ 2
  set N := min (s.ball.speed * (107 / 100)) s.ball.maxSpeed with hN
  rw [hsum, hsq]
  field_simp
  linear_combination N ^ 2 * hsum

/-- Closed form of iterating the per-catch speed escalation. -/
theorem escalate_iterate (maxS base : ℚ) (h0 : 0 ≤ base) (hbM : base ≤ maxS) :
    ∀ N : ℕ, (FourPaddle.escalate maxS)^[N] base
      = min (base * (107 / 100) ^ N) maxS := by
  intro N
  induction N with
  | zero => simp [min_eq_left hbM]
  | succ n ih =>
    rw [Function.iterate_succ_apply', ih]
    unfold FourPaddle.escalate
    rcases le_total (base * (107 / 100) ^ n) maxS with hc | hc
    · rw [min_eq_left hc, pow_succ, ← mul_assoc]
    · have hM0 : 0 ≤ maxS := le_trans h0 hbM
      have h1 : maxS ≤ maxS * (107 / 100 : ℚ) := by nlinarith
      have h2 : maxS ≤ base * (107 / 100) ^ (n + 1) := by
        have h3 := mul_le_mul_of_nonneg_right hc (by norm_num : (0 : ℚ) ≤ 107 / 100)
        calc maxS ≤ maxS * (107 / 100) := h1
          _ ≤ base * (107 / 100) ^ n * (107 / 100) := h3
          _ = base * (107 / 100) ^ (n + 1) := by ring
      rw [min_eq_right hc, min_eq_right h1, min_eq_right h2]

/-- Claim C1: a resolved paddle catch updates the speed field to
`min(speed * 1.07, maxSpeed)`, keeps `maxSpeed`, and renormalizes the
outgoing velocity so its magnitude is exactly that new speed (stated on
squares); hence iterating the escalation N times from a base speed
within the cap yields `min(base * 1.07^N, maxSpeed)`, which never
exceeds the cap. -/
theorem c1_catch_escalates_and_renormalizes (tr : Trig)
    (name : FourPaddle.PaddleName) (bl br bt bb : ℚ) (s : FourPaddle.State)
    (hpy : ∀ a : ℚ, tr.cos a ^ 2 + tr.sin a ^ 2 = 1)
    (hsq : tr.sqrt (s.ball.speed ^ 2) = s.ball.speed)
    (hsp : 0 < s.ball.speed)
    (hcatch : (FourPaddle.checkSinglePaddleCollisionB tr name bl br bt bb s).2 = true) :
    ((FourPaddle.checkSinglePaddleCollisionB tr name bl br bt bb s).1.ball.speed
        = min (s.ball.speed * (107 / 100)) s.ball.maxSpeed
      ∧ (FourPaddle.checkSinglePaddleCollisionB tr name bl br bt bb s).1.ball.maxSpeed
        = s.ball.maxSpeed
      ∧ (FourPaddle.checkSinglePaddleCollisionB tr name bl br bt bb s).1.ball.velocityX ^ 2
          + (FourPaddle.checkSinglePaddleCollisionB tr name bl br bt bb s).1.ball.velocityY ^ 2
        = (FourPaddle.checkSinglePaddleCollisionB tr name bl br bt bb s).1.ball.speed ^ 2
      ∧ (FourPaddle.checkSinglePaddleCollisionB tr name bl br bt bb s).1.ball.speed
        ≤ s.ball.maxSpeed)
    ∧ (∀ (N : ℕ) (base maxS : ℚ), 0 ≤ base → base ≤ maxS →
        (FourPaddle.escalate maxS)^[N] base = min (base * (107 / 100) ^ N) maxS) := by
  refine ⟨?_, fun N base maxS h0 hbM => escalate_iterate maxS base h0 hbM N⟩
  have habs : ∀ a : ℚ,
      |tr.cos a * s.ball.speed| * |tr.cos a * s.ball.speed|
        + tr.sin a * s.ball.speed * (tr.sin a * s.ball.speed)
      = s.ball.speed ^ 2 := by
    intro a
    rw [abs_mul_abs_self]
    linear_combination s.ball.speed ^ 2 * hpy a
  have hnegabs : ∀ a : ℚ,
      -|tr.cos a * s.ball.speed| * -|tr.cos a * s.ball.speed|
        + tr.sin a * s.ball.speed * (tr.sin a * s.ball.speed)
      = s.ball.speed ^ 2 := by
    intro a
    rw [neg_mul_neg, abs_mul_abs_self]
    linear_combination s.ball.speed ^ 2 * hpy a
  have hsinabs : ∀ a : ℚ,
      tr.sin a * s.ball.speed * (tr.sin a * s.ball.speed)
        + |tr.cos a * s.ball.speed| * |tr.cos a * s.ball.speed|
      = s.ball.speed ^ 2 := by
    intro a
    rw [abs_mul_abs_self]
    linear_combination s.ball.speed ^ 2 * hpy a
  have hsinnegabs : ∀ a : ℚ,
      tr.sin a * s.ball.speed * (tr.sin a * s.ball.speed)
        + -|tr.cos a * s.ball.speed| * -|tr.cos a * s.ball.speed|
      = s.ball.speed ^ 2 := by
    intro a
    rw [neg_mul_neg, abs_mul_abs_self]
    linear_combination s.ball.speed ^ 2 * hpy a
  cases name with
  | left =>
    simp only [FourPaddle.checkSinglePaddleCollisionB, FourPaddle.Paddles.get]
      at hcatch ⊢
    split_ifs at hcatch ⊢ with h1 h2
    · exact ⟨(applyBounce_ball tr s _ _ _ (habs _) hsq hsp).1,
        (applyBounce_ball tr s _ _ _ (habs _) hsq hsp).2.1,
        (applyBounce_ball tr s _ _ _ (habs _) hsq hsp).2.2,
        le_trans (le_of_eq (applyBounce_ball tr s _ _ _ (habs _) hsq hsp).1)
          (min_le_right _ _)⟩
  | right =>
    simp only [FourPaddle.checkSinglePaddleCollisionB, FourPaddle.Paddles.get]
      at hcatch ⊢
    split_ifs at hcatch ⊢ with h1 h2
    · exact ⟨(applyBounce_ball tr s _ _ _ (hnegabs _) hsq hsp).1,
        (applyBounce_ball tr s _ _ _ (hnegabs _) hsq hsp).2.1,
        (applyBounce_ball tr s _ _ _ (hnegabs _) hsq hsp).2.2,
        le_trans (le_of_eq (applyBounce_ball tr s _ _ _ (hnegabs _) hsq hsp).1)
          (min_le_right _ _)⟩
  | top =>
    simp only [FourPaddle.checkSinglePaddleCollisionB, FourPaddle.Paddles.get]
      at hcatch ⊢
    split_ifs at hcatch ⊢ with h1 h2
    · exact ⟨(applyBounce_ball tr s _ _ _ (hsinabs _) hsq hsp).1,
        (applyBounce_ball tr s _ _ _ (hsinabs _) hsq hsp).2.1,
        (applyBounce_ball tr s _ _ _ (hsinabs _) hsq hsp).2.2,
        le_trans (le_of_eq (applyBounce_ball tr s _ _ _ (hsinabs _) hsq hsp).1)
          (min_le_right _ _)⟩
  | bottom =>
    simp only [FourPaddle.checkSinglePaddleCollisionB, FourPaddle.Paddles.get]
      at hcatch ⊢
    split_ifs at hcatch ⊢ with h1 h2
    · exact ⟨(applyBounce_ball tr s _ _ _ (hsinnegabs _) hsq hsp).1,
        (applyBounce_ball tr s _ _ _ (hsinnegabs _) hsq hsp).2.1,
        (applyBounce_ball tr s _ _ _ (hsinnegabs _) hsq hsp).2.2,
        le_trans (le_of_eq (applyBounce_ball tr s _ _ _ (hsinnegabs _) hsq hsp).1)
          (min_le_right _ _)⟩

/-- Witness for C1: a concrete right-paddle catch under `tr0` from a
ball at speed 300 (escalated speed 321, velocity (-321, 0)). -/
theorem c1_catch_escalates_and_renormalizes_witness :
    (0 < sC.ball.speed)
    ∧ (tr0.cos 0 ^ 2 + tr0.sin 0 ^ 2 = 1)
    ∧ (tr0.sqrt (sC.ball.speed ^ 2) = sC.ball.speed)
    ∧ (FourPaddle.checkSinglePaddleCollisionB tr0 .right 750 770 290 310 sC).2 = true
    ∧ ((FourPaddle.checkSinglePaddleCollisionB tr0 .right 750 770 290 310 sC).1.ball.speed
        = min (sC.ball.speed * (107 / 100)) sC.ball.maxSpeed
      ∧ (FourPaddle.checkSinglePaddleCollisionB tr0 .right 750 770 290 310 sC).1.ball.maxSpeed
        = sC.ball.maxSpeed
      ∧ (FourPaddle.checkSinglePaddleCollisionB tr0 .right 750 770 290 310 sC).1.ball.velocityX ^ 2
          + (FourPaddle.checkSinglePaddleCollisionB tr0 .right 750 770 290 310 sC).1.ball.velocityY ^ 2
        = (FourPaddle.checkSinglePaddleCollisionB tr0 .right 750 770 290 310 sC).1.ball.speed ^ 2
      ∧ (FourPaddle.checkSinglePaddleCollisionB tr0 .right 750 770 290 310 sC).1.ball.speed
        ≤ sC.ball.maxSpeed) := by
  have hcatch : (FourPaddle.checkSinglePaddleCollisionB tr0 .right 750 770 290 310 sC).2
      = true := by
    norm_num [FourPaddle.checkSinglePaddleCollisionB, FourPaddle.applyBounce,
      FourPaddle.Paddles.get, FourPaddle.createInitialPaddles, sC, tr0]
  exact ⟨by norm_num [sC], by norm_num [tr0], rfl, hcatch,
    (c1_catch_escalates_and_renormalizes tr0 .right 750 770 290 310 sC
      (fun a => by norm_num [tr0]) rfl (by norm_num [sC]) hcatch).1⟩

/-! ## Claim C5: score accounting -/

/-- Closed form of the four per-catch increments against the catch
count. -/
theorem score_sum (a : ℤ) (b1 b2 b3 b4 : Bool) :
    a + (if b1 = true then 10 else 0) + (if b2 = true then 10 else 0)
      + (if b3 = true then 10 else 0) + (if b4 = true then 10 else 0)
    = a + 10 * ((cond b1 1 0 + cond b2 1 0 + cond b3 1 0 + cond b4 1 0 : ℕ) : ℤ) := by
  cases b1 <;> cases b2 <;> cases b3 <;> cases b4 <;> norm_num <;> omega

/-- The collision pass adds 10 points per resolved catch. -/
theorem checkPaddleCollisionsB_score (tr : Trig) (s : FourPaddle.State) :
    (FourPaddle.checkPaddleCollisionsB tr s).1.score
      = s.score + 10 * ((FourPaddle.checkPaddleCollisionsB tr s).2 : ℤ) := by
  simp only [FourPaddle.checkPaddleCollisionsB]
  rw [checkSingle_score, checkSingle_score, checkSingle_score, checkSingle_score]
  exact score_sum _ _ _ _ _

/-- Pong paddle catch adds exactly one point. -/
theorem paddleHitB_score (tr : Trig) (s : PongGame.State) :
    (PongGame.paddleHitB tr s).1.score
      = s.score + (if (PongGame.paddleHitB tr s).2 = true then 1 else 0) := by
  simp only [PongGame.paddleHitB]
  split_ifs <;> simp_all

/-- The top/bottom wall phase never touches the score. -/
theorem wallTB_score (s : PongGame.State) : (PongGame.wallTB s).score = s.score := by
  simp only [PongGame.wallTB]
  split_ifs <;> rfl

/-- The right-wall phase never touches the score. -/
theorem rightWall_score (s : PongGame.State) :
    (PongGame.rightWall s).score = s.score := by
  simp only [PongGame.rightWall]
  split_ifs <;> rfl

/-- When the left-wall phase does not fire, it leaves the state alone. -/
theorem leftResetB_of_not_reset (s : PongGame.State)
    (h : (PongGame.leftResetB s).2 = false) : (PongGame.leftResetB s).1 = s := by
  simp only [PongGame.leftResetB] at h ⊢
  split_ifs at h ⊢
  all_goals rfl

/-- Claim C5: in the four-paddle lives variant, every `update` adds
exactly 10 points per resolved catch of the step (wall hits and misses
add nothing), so the score never decreases; in the legacy classic
variant, any `update` that does not reset the game adds exactly one
point per resolved catch. -/
theorem c5_score_per_catch :
    (∀ (tr : Trig) (rand deltaTime : ℚ) (inp : FourPaddle.Input)
        (s : FourPaddle.State),
      (FourPaddle.updateB tr rand deltaTime inp s).1.score
        = s.score + 10 * ((FourPaddle.updateB tr rand deltaTime inp s).2 : ℤ)
      ∧ s.score ≤ (FourPaddle.updateB tr rand deltaTime inp s).1.score)
    ∧ (∀ (tr : Trig) (deltaTime : ℚ) (inp : PongGame.Input) (s : PongGame.State),
      (PongGame.updateB tr deltaTime inp s).2.2 = false →
        (PongGame.updateB tr deltaTime inp s).1.score
          = s.score
            + (if (PongGame.updateB tr deltaTime inp s).2.1 = true then 1 else 0)) := by
  constructor
  · intro tr rand deltaTime inp s
    have key : (FourPaddle.updateB tr rand deltaTime inp s).1.score
        = s.score + 10 * ((FourPaddle.updateB tr rand deltaTime inp s).2 : ℤ) := by
      by_cases hstop : ¬s.gameConfig.isRunning = true ∨ s.gameOver = true
      · have : FourPaddle.updateB tr rand deltaTime inp s = (s, 0) := by
          simp only [FourPaddle.updateB, if_pos hstop]
        rw [this]
        norm_num
      · push_neg at hstop
        have hb : FourPaddle.updateB tr rand deltaTime inp s
            = (FourPaddle.checkGameOver (FourPaddle.checkWallCollisions tr rand
                (FourPaddle.checkPaddleCollisionsB tr (FourPaddle.updateBall deltaTime
                  (FourPaddle.updatePaddles deltaTime inp s))).1),
               (FourPaddle.checkPaddleCollisionsB tr (FourPaddle.updateBall deltaTime
                  (FourPaddle.updatePaddles deltaTime inp s))).2) := by
          simp only [FourPaddle.updateB, hstop.1, hstop.2]
          simp
        rw [hb]
        rw [(checkGameOver_frame _).2.2.2.2.1, (checkWallCollisions_frame _ _ _).2.2.1,
          checkPaddleCollisionsB_score]
        rfl
    exact ⟨key, by rw [key]; exact le_add_of_nonneg_right (by positivity)⟩
  · intro tr deltaTime inp s h
    simp only [PongGame.updateB] at h ⊢
    rw [rightWall_score, leftResetB_of_not_reset _ h, paddleHitB_score, wallTB_score]
    rfl

/-- Witness for C5's classic conjunct: a step from the initial classic
state neither resets nor catches, and the score stays 0. -/
theorem c5_score_per_catch_witness :
    (PongGame.updateB tr0 0 pinp0 PongGame.resetState).2.2 = false
    ∧ (PongGame.updateB tr0 0 pinp0 PongGame.resetState).1.score
      = PongGame.resetState.score
        + (if (PongGame.updateB tr0 0 pinp0 PongGame.resetState).2.1 = true
           then 1 else 0) := by
  have h : (PongGame.updateB tr0 0 pinp0 PongGame.resetState).2.2 = false := by
    norm_num [PongGame.updateB, PongGame.movePaddle, PongGame.moveBall,
      PongGame.wallTB, PongGame.paddleHitB, PongGame.leftResetB,
      PongGame.rightWall, PongGame.resetState, tr0, pinp0]
  exact ⟨h, c5_score_per_catch.2 tr0 0 pinp0 PongGame.resetState h⟩

/-! ## Claim C9: the lives counter -/

/-- One `update` step preserves the lives invariant. -/
theorem update_livesInv (tr : Trig) (rand deltaTime : ℚ) (inp : FourPaddle.Input)
    (s : FourPaddle.State) (h : FourPaddle.livesInv s) :
    FourPaddle.livesInv (FourPaddle.update tr rand deltaTime inp s) := by
  cases hR : s.gameConfig.isRunning with
  | false => rw [update_stopped tr rand deltaTime inp s (Or.inl hR)]; exact h
  | true =>
    cases hG : s.gameOver with
    | true => rw [update_stopped tr rand deltaTime inp s (Or.inr hG)]; exact h
    | false =>
      have h1 : 1 ≤ s.lives := h.2 ⟨hR, hG⟩
      rw [(update_running tr rand deltaTime inp s hR hG).1]
      have hX := checkPaddleCollisionsB_frame tr (FourPaddle.updateBall deltaTime
        (FourPaddle.updatePaddles deltaTime inp s))
      have hXl : (FourPaddle.checkPaddleCollisionsB tr (FourPaddle.updateBall deltaTime
          (FourPaddle.updatePaddles deltaTime inp s))).1.lives = s.lives := by
        rw [hX.2.2.1]; rfl
      have hWl : s.lives - 1
            ≤ (FourPaddle.checkWallCollisions tr rand (FourPaddle.checkPaddleCollisionsB tr
              (FourPaddle.updateBall deltaTime
                (FourPaddle.updatePaddles deltaTime inp s))).1).lives
          ∧ (FourPaddle.checkWallCollisions tr rand (FourPaddle.checkPaddleCollisionsB tr
              (FourPaddle.updateBall deltaTime
                (FourPaddle.updatePaddles deltaTime inp s))).1).lives ≤ s.lives := by
        rcases checkWallCollisions_shape tr rand (FourPaddle.checkPaddleCollisionsB tr
            (FourPaddle.updateBall deltaTime (FourPaddle.updatePaddles deltaTime inp s))).1
          with hw | hw <;> rw [hw] <;> constructor <;> simp [hXl]
      set W := FourPaddle.checkWallCollisions tr rand (FourPaddle.checkPaddleCollisionsB tr
        (FourPaddle.updateBall deltaTime (FourPaddle.updatePaddles deltaTime inp s))).1 with hW
      have hlW : (FourPaddle.checkGameOver W).lives = W.lives := (checkGameOver_frame W).2.2.2.1
      constructor
      · rw [hlW]; omega
      · intro hc
        rcases le_or_lt W.lives 0 with hle | hlt
        · exact absurd hc.1 (by rw [checkGameOver_stops W hle]; simp)
        · rw [hlW]; omega

/-- Any public operation preserves the lives invariant, as long as
`start()` is only called with positive lives or after game over. -/
theorem opApply_livesInv (tr : Trig) (op : FourPaddle.Op) (s : FourPaddle.State)
    (h : FourPaddle.livesInv s)
    (hstart : op = FourPaddle.Op.start → 0 < s.lives ∨ s.gameOver = true) :
    FourPaddle.livesInv (op.apply tr s) := by
  cases op with
  | update rand dt inp => exact update_livesInv tr rand dt inp s h
  | start =>
    rcases hstart rfl with h' | h'
    · refine ⟨?_, fun _ => ?_⟩
      · show 0 ≤ s.lives
        omega
      · show 1 ≤ s.lives
        omega
    · refine ⟨?_, fun hc => ?_⟩
      · show 0 ≤ s.lives
        exact h.1
      · exfalso
        have hfo : s.gameOver = false := hc.2
        rw [hfo] at h'
        exact absurd h' (by simp)
  | pause => exact ⟨h.1, fun hc => absurd hc.1 (by simp [FourPaddle.Op.apply, FourPaddle.pause])⟩
  | reset rand =>
    exact ⟨by norm_num [FourPaddle.Op.apply, FourPaddle.reset],
      fun hc => absurd hc.1 (by simp [FourPaddle.Op.apply, FourPaddle.reset])⟩
  | activateReserveTeam rand =>
    constructor
    · show (0 : ℤ) ≤ 1
      norm_num
    · intro _
      show (1 : ℤ) ≤ 1
      norm_num
  | declineReserveTeam =>
    exact ⟨h.1, fun hc => absurd hc.2 (by simp [FourPaddle.Op.apply,
      FourPaddle.declineReserveTeam])⟩

/-- The lives invariant holds along any guarded trace of public
operations. -/
theorem runOps_livesInv (tr : Trig) (ops : List FourPaddle.Op) :
    ∀ s : FourPaddle.State, FourPaddle.livesInv s →
      FourPaddle.livesGuardOK tr s ops = true →
      FourPaddle.livesInv (FourPaddle.runOps tr ops s) := by
  induction ops with
  | nil => exact fun s h _ => h
  | cons op rest ih =>
    intro s h hg
    rw [FourPaddle.livesGuardOK, Bool.and_eq_true] at hg
    have hstart : op = FourPaddle.Op.start → 0 < s.lives ∨ s.gameOver = true := by
      intro he
      subst he
      have hgs := hg.1
      simp only [FourPaddle.startGuard, Bool.or_eq_true, decide_eq_true_eq] at hgs
      exact hgs
    have h1 := opApply_livesInv tr op s h hstart
    simpa [FourPaddle.runOps, List.foldl_cons] using
      ih (op.apply tr s) h1 hg.2

/-- Counterexample to C9 as stated: calling `start()` while the reserve
offer is pending (lives = 0) and then letting the ball hit a wall
drives the lives counter to -1. -/
theorem c9_counterexample :
    (FourPaddle.runOps tr0 [.start, u2, u2, u2, .start, u2]
      (FourPaddle.initState tr0 0)).lives = -1
    ∧ (FourPaddle.runOps tr0 [.start, u2, u2, u2, .start, u2]
      (FourPaddle.initState tr0 0)).lives < 0 := by
  have h : (FourPaddle.runOps tr0 [.start, u2, u2, u2, .start, u2]
      (FourPaddle.initState tr0 0)).lives = -1 := by
    norm_num [FourPaddle.runOps, List.foldl, FourPaddle.Op.apply, FourPaddle.update,
      FourPaddle.updateB, FourPaddle.updatePaddles, FourPaddle.updateBall,
      FourPaddle.checkPaddleCollisionsB, FourPaddle.checkSinglePaddleCollisionB,
      FourPaddle.applyBounce, FourPaddle.Paddles.get, FourPaddle.checkWallCollisions,
      FourPaddle.resetBall, FourPaddle.createInitialBall, FourPaddle.checkGameOver,
      FourPaddle.boundaryClamp, FourPaddle.initState, FourPaddle.createInitialPaddles,
      FourPaddle.start, tr0, u2, inp0]
  refine ⟨h, by rw [h]; norm_num⟩

/-- Amended C9: in the four-paddle variant, `lives ≥ 0` holds in every
state reachable from a fresh match through public operations, provided
`start()` is only invoked from states with positive lives or with
`gameOver` already true. -/
theorem c9_amended_lives_nonneg (tr : Trig) (r0 : ℚ) (ops : List FourPaddle.Op)
    (hg : FourPaddle.livesGuardOK tr (FourPaddle.initState tr r0) ops = true) :
    0 ≤ (FourPaddle.runOps tr ops (FourPaddle.initState tr r0)).lives := by
  refine (runOps_livesInv tr ops (FourPaddle.initState tr r0) ⟨?_, ?_⟩ hg).1
  · norm_num [FourPaddle.initState]
  · intro hc
    exact absurd hc.1 (by simp [FourPaddle.initState])

/-- Witness for the amended C9 on a concrete guarded trace. -/
theorem c9_amended_lives_nonneg_witness :
    FourPaddle.livesGuardOK tr0 (FourPaddle.initState tr0 0) [.start, u2] = true
    ∧ 0 ≤ (FourPaddle.runOps tr0 [.start, u2]
        (FourPaddle.initState tr0 0)).lives := by
  have hg : FourPaddle.livesGuardOK tr0 (FourPaddle.initState tr0 0) [.start, u2]
      = true := by
    norm_num [FourPaddle.livesGuardOK, FourPaddle.startGuard, FourPaddle.Op.apply, FourPaddle.update,
      FourPaddle.updateB, FourPaddle.updatePaddles, FourPaddle.updateBall,
      FourPaddle.checkPaddleCollisionsB, FourPaddle.checkSinglePaddleCollisionB,
      FourPaddle.applyBounce, FourPaddle.Paddles.get, FourPaddle.checkWallCollisions,
      FourPaddle.resetBall, FourPaddle.createInitialBall, FourPaddle.checkGameOver,
      FourPaddle.boundaryClamp, FourPaddle.initState, FourPaddle.createInitialPaddles,
      FourPaddle.start, tr0, u2, inp0]
  exact ⟨hg, c9_amended_lives_nonneg tr0 0 [.start, u2] hg⟩

/-! ## Claim C4: the reserve-team flow -/

/-- Claim C4 (code bug evidence): from a fresh match, three life-losing
updates exhaust the lives and set the reserve offer (match paused,
`gameOver` still false); `activateReserveTeam()` then sets lives to 1,
restarts the match and halves the paddles' long axes — but because the
final `resetBall()` replaces the ball wholesale, the ball's speed ends
at the base speed 300, not at 1.6 times its previous value as the
spec's scenario (and the code's own comment) require. -/
theorem c4_reserve_activation_discards_speed_boost :
    sOffer.lives = 0 ∧ sOffer.reserveTeamUsed = false
    ∧ sOffer.showReserveTeamOption = true ∧ sOffer.gameConfig.isRunning = false
    ∧ sOffer.gameOver = false ∧ sOffer.ball.speed = 300
    ∧ sRes.lives = 1 ∧ sRes.gameConfig.isRunning = true
    ∧ sRes.paddles.left.height = sOffer.paddles.left.height * (1/2)
    ∧ sRes.paddles.right.height = sOffer.paddles.right.height * (1/2)
    ∧ sRes.paddles.top.width = sOffer.paddles.top.width * (1/2)
    ∧ sRes.paddles.bottom.width = sOffer.paddles.bottom.width * (1/2)
    ∧ sRes.ball.speed = 300 ∧ sRes.ball.speed = sRes.ball.baseSpeed
    ∧ ¬sRes.ball.speed = sOffer.ball.speed * (8/5) := by
  norm_num [sOffer, sRes, FourPaddle.runOps, List.foldl, FourPaddle.Op.apply,
    FourPaddle.update, FourPaddle.updateB, FourPaddle.updatePaddles,
    FourPaddle.updateBall, FourPaddle.checkPaddleCollisionsB,
    FourPaddle.checkSinglePaddleCollisionB, FourPaddle.applyBounce,
    FourPaddle.Paddles.get, FourPaddle.checkWallCollisions, FourPaddle.resetBall,
    FourPaddle.createInitialBall, FourPaddle.checkGameOver, FourPaddle.boundaryClamp,
    FourPaddle.initState, FourPaddle.createInitialPaddles, FourPaddle.start,
    FourPaddle.activateReserveTeam, tr0, u2, inp0]

/-! ## Claim theorems: classic wall policy (C8) -/

/-- Counterexample to C8: in the classic pong-game variant the right
boundary DOES bounce the ball.  At `s8` the ball's edge is past the
right boundary, away from the paddle, and one `update` step flips the
sign of `vx` and clamps the ball back inside instead of letting it pass
through. -/
theorem c8_counterexample :
    s8.ball.x + s8.ball.radius ≥ s8.bounds.width
    ∧ (PongGame.update tr0 0 pinp0 s8).ball.vx = -s8.ball.vx
    ∧ ¬(PongGame.update tr0 0 pinp0 s8).ball.vx = s8.ball.vx
    ∧ (PongGame.update tr0 0 pinp0 s8).ball.x + (PongGame.update tr0 0 pinp0 s8).ball.radius
        ≤ s8.bounds.width := by
  norm_num [PongGame.update, PongGame.updateB, PongGame.movePaddle,
    PongGame.moveBall, PongGame.wallTB, PongGame.paddleHitB,
    PongGame.leftResetB, PongGame.rightWall, PongGame.resetState, s8, tr0, pinp0]

/-- Amended C8, as the classic pong-game code actually behaves: a step
whose ball edge crosses the top or bottom boundary flips the sign of
`vy`; crossing the left boundary resets the whole game to its initial
state (it does not reflect); crossing the right boundary flips the sign
of `vx` (the right wall bounces; the ball never passes through it). -/
theorem c8_amended_wall_policy :
    (∀ s : PongGame.State,
      s.ball.y - s.ball.radius ≤ 0 ∨ s.ball.y + s.ball.radius ≥ s.bounds.height →
      (PongGame.wallTB s).ball.vy = -s.ball.vy)
    ∧ (∀ s : PongGame.State, s.ball.x - s.ball.radius ≤ 0 →
        PongGame.leftResetB s = (PongGame.resetState, true))
    ∧ (∀ s : PongGame.State, s.ball.x + s.ball.radius ≥ s.bounds.width →
        (PongGame.rightWall s).ball.vx = -s.ball.vx) := by
  refine ⟨fun s h => ?_, fun s h => ?_, fun s h => ?_⟩
  · unfold PongGame.wallTB
    rw [if_pos h]
  · unfold PongGame.leftResetB
    rw [if_pos h]
  · unfold PongGame.rightWall
    rw [if_pos h]

/-- Witness for the amended C8: each of the three wall behaviors
realized at a concrete state. -/
theorem c8_amended_wall_policy_witness :
    ((5 : ℚ) - 10 ≤ 0
      ∧ (PongGame.wallTB { PongGame.resetState with
            ball := { x := 400, y := 5, vx := 200, vy := -150, radius := 10 } }).ball.vy
        = -(-150 : ℚ))
    ∧ ((5 : ℚ) - 10 ≤ 0
      ∧ PongGame.leftResetB { PongGame.resetState with
            ball := { x := 5, y := 300, vx := -200, vy := 0, radius := 10 } }
          = (PongGame.resetState, true))
    ∧ ((795 : ℚ) + 10 ≥ 800
      ∧ (PongGame.rightWall s8).ball.vx = -(200 : ℚ)) :=
  ⟨⟨by norm_num,
    c8_amended_wall_policy.1 { PongGame.resetState with
        ball := { x := 400, y := 5, vx := 200, vy := -150, radius := 10 } }
      (Or.inl (by norm_num))⟩,
   ⟨by norm_num,
    c8_amended_wall_policy.2.1 { PongGame.resetState with
        ball := { x := 5, y := 300, vx := -200, vy := 0, radius := 10 } }
      (by norm_num)⟩,
   ⟨by norm_num,
    c8_amended_wall_policy.2.2 s8 (by norm_num [s8, PongGame.resetState])⟩⟩

end Pong
